import Mathlib

/-!
Verification of the Capture–Revise–Paste pipeline (`revisor.py`).

The program is shallowly embedded: JSON values become an inductive type,
Python string operations become Lean functions on `String`, the external
world (environment variables, tool availability on PATH, clipboard
contents, remote-call outcome) becomes a `World` record, and each Python
function of the source becomes a Lean function of the same name.
Python exceptions inside the response parser are modelled with `Except`.
-/

set_option linter.unusedVariables false

/-- JSON values as produced by `json.loads`. -/
inductive Json where
  | null : Json
  | bool : Bool → Json
  | num : Int → Json
  | str : String → Json
  | arr : List Json → Json
  | obj : List (String × Json) → Json

/-- Python whitespace predicate for `str.strip()` (ASCII range):
space, tab, newline, carriage return, vertical tab, form feed. -/
def pyWsChar (c : Char) : Bool :=
  c = ' ' || c = '\t' || c = '\n' || c = '\r' || c = '\x0b' || c = '\x0c'

/-- Strip `pyWsChar` characters from both ends of a character list. -/
def stripList (l : List Char) : List Char :=
  ((l.dropWhile pyWsChar).reverse.dropWhile pyWsChar).reverse

/-- Python `str.strip()`: remove leading and trailing whitespace. -/
def pyStrip (s : String) : String :=
  String.mk (stripList s.data)

/-- Python dict lookup (`d.get(k)` / `k in d`): keys are unique after
`json.loads`, so first-match association lookup models it. -/
def pyLookup (fs : List (String × Json)) (k : String) : Option Json :=
  match fs with
  | [] => none
  | (k2, v) :: rest => if k2 = k then some v else pyLookup rest k

/-- Python `d.get(k, default)` on a dict. -/
def pyDictGetD (fs : List (String × Json)) (k : String) (d : Json) : Json :=
  (pyLookup fs k).getD d

/-- A value's `.get` attribute access: succeeds only on dicts, otherwise
Python raises `AttributeError` (caught by the caller's handler). -/
def asDict : Json → Except String (List (String × Json))
  | Json.obj fs => Except.ok fs
  | _ => Except.error "AttributeError: get"

/-- `.strip()` attribute access: succeeds only on strings. -/
def asStr : Json → Except String String
  | Json.str s => Except.ok s
  | _ => Except.error "AttributeError: strip"

/-- Python iteration `for blk in v`: lists yield elements, strings yield
one-character strings, dicts yield their keys; other values raise. -/
def iterable : Json → Except String (List Json)
  | Json.arr xs => Except.ok xs
  | Json.str s => Except.ok (s.data.map (fun c => Json.str (String.singleton c)))
  | Json.obj fs => Except.ok (fs.map (fun p => Json.str p.1))
  | _ => Except.error "TypeError: not iterable"

/-- Python subscript `v[k]` with a string key: `KeyError` when the key is
absent from a dict, `TypeError` on non-dicts. -/
def pySubscript (j : Json) (k : String) : Except String Json :=
  match j with
  | Json.obj fs =>
    match pyLookup fs k with
    | some v => Except.ok v
    | none => Except.error "KeyError"
  | _ => Except.error "TypeError: subscript"

/-- Python subscript `v[0]`: first element of a list, first character of a
string; other values raise. -/
def pyIndexZero (j : Json) : Except String Json :=
  match j with
  | Json.arr (x :: _) => Except.ok x
  | Json.arr [] => Except.error "IndexError"
  | Json.str s =>
    match s.data with
    | c :: _ => Except.ok (Json.str (String.singleton c))
    | [] => Except.error "IndexError"
  | _ => Except.error "TypeError: index"

/-- Python truthiness of a JSON value. -/
def pyTruthy : Json → Bool
  | Json.null => false
  | Json.bool b => b
  | Json.num n => n != 0
  | Json.str s => !s.isEmpty
  | Json.arr xs => !xs.isEmpty
  | Json.obj fs => !fs.isEmpty

/-- `blk.get("type") == "output_text"` (source line 136). -/
def typeIsOutputText (bfs : List (String × Json)) : Bool :=
  match pyLookup bfs "type" with
  | some (Json.str s) => s = "output_text"
  | _ => false

/-- Which parsing branch of `ask_llm` produced the result: the top-level
`.text` field, the `/responses` output list, the chat `choices` list, the
parse-failed branch (which logs the raw body), or an exception caught by
the surrounding handler. -/
inductive ParsePath where
  | textPath : ParsePath
  | outputPath : ParsePath
  | choicesPath : ParsePath
  | failPath : ParsePath
  | errorPath : ParsePath
deriving DecidableEq

/-- Extracted text together with the branch that produced it. -/
structure ParseOutcome where
  text : String
  path : ParsePath
deriving DecidableEq

/-- Python `"\n".join`-style separator join on strings. -/
def joinSep (sep : String) : List String → String
  | [] => ""
  | [s] => s
  | s :: rest => s ++ sep ++ joinSep sep rest

/-- `"\n".join(chunks)` demands every chunk be a string, else `TypeError`. -/
def allStrs : List Json → Except String (List String)
  | [] => Except.ok []
  | Json.str s :: rest =>
    match allStrs rest with
    | Except.error e => Except.error e
    | Except.ok ss => Except.ok (s :: ss)
  | _ :: _ => Except.error "TypeError: join"

/-- `sep.join(xs)` on a Python list of arbitrary values. -/
def pyJoin (sep : String) (xs : List Json) : Except String String :=
  match allStrs xs with
  | Except.error e => Except.error e
  | Except.ok ss => Except.ok (joinSep sep ss)

/-- Inner loop of the `/responses` branch (source lines 135-137): for each
`blk` in an item's content, append `blk.get("text", "")` when its type is
`output_text`; `blk.get` raises on non-dict blocks. -/
def chunksOfBlocks : List Json → Except String (List Json)
  | [] => Except.ok []
  | blk :: rest =>
    match asDict blk with
    | Except.error e => Except.error e
    | Except.ok bfs =>
      match chunksOfBlocks rest with
      | Except.error e => Except.error e
      | Except.ok cs =>
        Except.ok (if typeIsOutputText bfs then pyDictGetD bfs "text" (Json.str "") :: cs else cs)

/-- Outer loop of the `/responses` branch (source lines 134-137): for each
item in `data["output"]`, iterate `item.get("content", [])`; `item.get`
raises on non-dict items. -/
def collectChunks : List Json → Except String (List Json)
  | [] => Except.ok []
  | item :: rest =>
    match asDict item with
    | Except.error e => Except.error e
    | Except.ok fs =>
      match iterable (pyDictGetD fs "content" (Json.arr [])) with
      | Except.error e => Except.error e
      | Except.ok blks =>
        match chunksOfBlocks blks with
        | Except.error e => Except.error e
        | Except.ok cs =>
          match collectChunks rest with
          | Except.error e => Except.error e
          | Except.ok cs2 => Except.ok (cs ++ cs2)

/-- Chat-completions fallback and parse-failed branch of `ask_llm`
(source lines 142-146). -/
def parseAfterOutput (fs : List (String × Json)) : Except String ParseOutcome :=
  match pyLookup fs "choices" with
  | some c =>
    if pyTruthy c then
      match pyIndexZero c with
      | Except.error e => Except.error e
      | Except.ok c0 =>
        match pySubscript c0 "message" with
        | Except.error e => Except.error e
        | Except.ok m =>
          match pySubscript m "content" with
          | Except.error e => Except.error e
          | Except.ok ct =>
            match asStr ct with
            | Except.error e => Except.error e
            | Except.ok s => Except.ok ⟨pyStrip s, ParsePath.choicesPath⟩
    else Except.ok ⟨"", ParsePath.failPath⟩
  | none => Except.ok ⟨"", ParsePath.failPath⟩

/-- Join-and-strip step of the `/responses` branch (source lines
138-140): `text = ("\\n".join(chunks)).strip()`. -/
def outputJoin (chunks : List Json) : Except String ParseOutcome :=
  match pyJoin "\n" chunks with
  | Except.error e => Except.error e
  | Except.ok t => Except.ok ⟨pyStrip t, ParsePath.outputPath⟩

/-- Body of the `/responses` branch (source lines 133-140): collect the
chunks over the output items, then join and strip. -/
def outputBranch (items : List Json) : Except String ParseOutcome :=
  match collectChunks items with
  | Except.error e => Except.error e
  | Except.ok chunks => outputJoin chunks

/-- `/responses` output-list branch of `ask_llm` (source lines 132-140):
taken when `"output" in data and isinstance(data["output"], list)`. -/
def parseAfterText (fs : List (String × Json)) : Except String ParseOutcome :=
  match pyLookup fs "output" with
  | some (Json.arr items) => outputBranch items
  | _ => parseAfterOutput fs

/-- Response parsing of `ask_llm` (source lines 126-146), starting from the
decoded JSON `data`; exceptions propagate to the caller's handler. -/
def parseResponse (data : Json) : Except String ParseOutcome :=
  match asDict data with
  | Except.error e => Except.error e
  | Except.ok fs =>
    match pyLookup fs "text" with
    | some (Json.str s) =>
      if pyStrip s = "" then parseAfterText fs else Except.ok ⟨pyStrip s, ParsePath.textPath⟩
    | _ => parseAfterText fs

/-- Response parsing with the `except` handler of `ask_llm` applied: an
exception is logged and yields the empty result. -/
def parseOutcome (data : Json) : ParseOutcome :=
  match parseResponse data with
  | Except.ok r => r
  | Except.error _ => ⟨"", ParsePath.errorPath⟩

/-- Outcome of the remote call up to JSON decoding: `failure` covers a curl
transport error, a timeout, a nonzero exit and a `json.loads` failure (all
caught by the same handler); `response` carries the decoded JSON. -/
inductive RemoteOutcome where
  | failure : RemoteOutcome
  | response : Json → RemoteOutcome

/-- The external world of one run: environment variables (`none` = unset),
tool availability on PATH, each clipboard source's outcome (`none` models a
timeout or nonzero exit of the reading tool), and the remote call. -/
structure World where
  apiKey : Option String
  sessionType : String
  echoVar : Option String
  promptFile : Option String
  hasXclip : Bool
  hasWlPaste : Bool
  hasWlCopy : Bool
  x11Primary : Option String
  x11Clipboard : Option String
  wlClipboard : Option String
  wlPrimary : Option String
  remote : RemoteOutcome

/-- `not API_KEY` of source line 204: true when the variable is unset or
bound to the empty string. -/
def keyFalsy : Option String → Bool
  | none => true
  | some s => s.isEmpty

/-- `ECHO` of source line 15: `os.getenv("REVISOR_ECHO", "0") == "1"`. -/
def echoFlag (w : World) : Bool :=
  w.echoVar.getD "0" = "1"

/-- Default system prompt of `read_prompt` (source line 46). -/
def defaultPrompt : String :=
  "Revise the text for clarity and concision. Preserve meaning. Keep same language. Plain text only."

/-- `read_prompt` (source lines 40-48): trimmed file contents when the
prompt file exists, else the built-in default. -/
def read_prompt (w : World) : String :=
  match w.promptFile with
  | some contents => pyStrip contents
  | none => defaultPrompt

/-- `grab_primary_x11` (source lines 50-60): xclip on the PRIMARY
selection; a missing tool, timeout or nonzero exit yields the empty string. -/
def grab_primary_x11 (w : World) : String :=
  if w.hasXclip then
    match w.x11Primary with
    | some t => t
    | none => ""
  else ""

/-- `grab_clipboard_x11` (source lines 62-72): xclip on the CLIPBOARD
selection; failures yield the empty string. -/
def grab_clipboard_x11 (w : World) : String :=
  if w.hasXclip then
    match w.x11Clipboard with
    | some t => t
    | none => ""
  else ""

/-- Python `str.lower()` over the character list (ASCII case fold, which
covers the session-type strings compared against "wayland"). -/
def pyLower (s : String) : String := String.mk (s.data.map Char.toLower)

/-- `x11_capture` (source lines 74-81): PRIMARY first, CLIPBOARD when the
first grab is blank. -/
def x11_capture (w : World) : String :=
  let t := grab_primary_x11 w
  if pyStrip t = "" then grab_clipboard_x11 w else t

/-- Second iteration of the `wayland_capture` loop (source line 88):
`wl-paste --primary --no-newline`, kept only when non-blank. -/
def waylandTryPrimary (w : World) : String :=
  match w.wlPrimary with
  | some t => if pyStrip t = "" then "" else t
  | none => ""

/-- `wayland_capture` (source lines 83-99): with wl-paste present, try the
clipboard then the primary selection, first non-blank output wins;
failures and blanks leave the text empty. -/
def wayland_capture (w : World) : String :=
  if w.hasWlPaste then
    match w.wlClipboard with
    | some t => if pyStrip t = "" then waylandTryPrimary w else t
    | none => waylandTryPrimary w
  else ""

/-- `capture` (source lines 187-192): the Wayland sequence only when the
session string lowercases to "wayland" and wl-paste is on PATH, else the
X11 sequence. -/
def capture (w : World) : String :=
  if pyLower w.sessionType = "wayland" ∧ w.hasWlPaste = true then wayland_capture w
  else x11_capture w

/-- `ask_llm` (source lines 101-149) as observed through its return value:
a transport/JSON failure or a parsing exception yields the empty string;
otherwise the parsed text. The prompt and input shape the request body,
not the parsing of the reply. -/
def ask_llm (remote : RemoteOutcome) (system_prompt user_text : String) : String :=
  match remote with
  | RemoteOutcome.failure => ""
  | RemoteOutcome.response data => (parseOutcome data).text

/-- Log lines and clipboard write performed by a paste helper. -/
structure PasteEffect where
  logs : List String
  written : Option String
deriving DecidableEq

/-- Log header of `paste_x11` (source line 173). -/
def x11PasteLog (n : Nat) : String := "Paste (X11) len=" ++ toString n

/-- Log header of `paste_wayland` (source line 182). -/
def waylandPasteLog (n : Nat) : String := "Paste (Wayland) len=" ++ toString n

/-- `paste_x11` (source lines 170-178): always logs the length header; with
xclip present it writes the text to the CLIPBOARD selection, otherwise it
logs the omission and writes nothing. -/
def paste_x11 (w : World) (text : String) : PasteEffect :=
  if w.hasXclip then
    { logs := [x11PasteLog text.length], written := some text }
  else
    { logs := [x11PasteLog text.length, "xclip missing; cannot set clipboard"], written := none }

/-- `paste_wayland` (source lines 180-185): always logs the length header;
with wl-copy present it writes the text, otherwise it silently writes
nothing. -/
def paste_wayland (w : World) (text : String) : PasteEffect :=
  { logs := [waylandPasteLog text.length],
    written := if w.hasWlCopy then some text else none }

/-- `paste` (source lines 194-200): the Wayland writer only when the
session string lowercases to "wayland" and wl-copy is on PATH, else the
X11 writer. -/
def paste (w : World) (text : String) : PasteEffect :=
  if pyLower w.sessionType = "wayland" ∧ w.hasWlCopy = true then paste_wayland w text
  else paste_x11 w text

/-- Observable outcome of one run of `main`. -/
structure RunResult where
  exitCode : Nat
  clipboardRead : Bool
  remoteCalled : Bool
  pasteArg : Option String
  written : Option String
  stdoutText : String
deriving DecidableEq

namespace Revisor

/-- `main` (source lines 202-227): key check, prompt load, capture,
blank-source early exit, remote call, empty-result fallback, optional echo
(Python `print` appends a newline to the standard-output stream), paste. -/
def main (w : World) : RunResult :=
  if keyFalsy w.apiKey then
    { exitCode := 1, clipboardRead := false, remoteCalled := false,
      pasteArg := none, written := none, stdoutText := "" }
  else
    let src := capture w
    if pyStrip src = "" then
      { exitCode := 0, clipboardRead := true, remoteCalled := false,
        pasteArg := none, written := none, stdoutText := "" }
    else
      let revised0 := ask_llm w.remote (read_prompt w) src
      let revised := if pyStrip revised0 = "" then src else revised0
      { exitCode := 0, clipboardRead := true, remoteCalled := true,
        pasteArg := some revised, written := (paste w revised).written,
        stdoutText := if echoFlag w then revised ++ "\n" else "" }

end Revisor

/-- Response carrying the content in the top-level plain-text field. -/
def shapeText (T : String) : Json := Json.obj [("text", Json.str T)]

/-- Response carrying the content in one `output_text` block of one output
item (the `/responses` shape). -/
def shapeOutput (T : String) : Json :=
  Json.obj [("output", Json.arr
    [Json.obj [("content", Json.arr
      [Json.obj [("type", Json.str "output_text"), ("text", Json.str T)]])]])]

/-- Response carrying the content in the first choice's message content
(the chat-completions shape). -/
def shapeChoices (T : String) : Json :=
  Json.obj [("choices", Json.arr
    [Json.obj [("message", Json.obj [("content", Json.str T)])]])]

/-- Concrete run for C1: X11 session, captured text "hello", transport
failure of the remote call; the writer receives the captured text. -/
def wC1 : World :=
  { apiKey := some "k", sessionType := "x11", echoVar := none,
    promptFile := none, hasXclip := true, hasWlPaste := false,
    hasWlCopy := false, x11Primary := some "hello", x11Clipboard := none,
    wlClipboard := none, wlPrimary := none, remote := RemoteOutcome.failure }

/-- Concrete run for C2: every clipboard source empty or failing. -/
def wC2 : World :=
  { apiKey := some "k", sessionType := "x11", echoVar := none,
    promptFile := none, hasXclip := true, hasWlPaste := false,
    hasWlCopy := false, x11Primary := some "  ", x11Clipboard := none,
    wlClipboard := none, wlPrimary := none, remote := RemoteOutcome.failure }

/-- Concrete run for C4: the key variable unset, everything else present. -/
def wC4 : World :=
  { apiKey := none, sessionType := "x11", echoVar := none,
    promptFile := none, hasXclip := true, hasWlPaste := false,
    hasWlCopy := false, x11Primary := some "hello", x11Clipboard := none,
    wlClipboard := none, wlPrimary := none, remote := RemoteOutcome.failure }

/-- Concrete run for C9: the remote reply carries " Hi " in its plain-text
field, which the client strips to "Hi". -/
def wC9 : World :=
  { apiKey := some "k", sessionType := "x11", echoVar := none,
    promptFile := none, hasXclip := true, hasWlPaste := false,
    hasWlCopy := false, x11Primary := some "hello", x11Clipboard := none,
    wlClipboard := none, wlPrimary := none,
    remote := RemoteOutcome.response (Json.obj [("text", Json.str " Hi ")]) }

/-- Concrete run for C3: echo enabled, captured text "hello", remote reply
"Hi" in the plain-text field. -/
def wC3 : World :=
  { apiKey := some "k", sessionType := "x11", echoVar := some "1",
    promptFile := none, hasXclip := true, hasWlPaste := false,
    hasWlCopy := false, x11Primary := some "hello", x11Clipboard := none,
    wlClipboard := none, wlPrimary := none,
    remote := RemoteOutcome.response (Json.obj [("text", Json.str "Hi")]) }

/-- Concrete run for the C6 counterexample: X11 session, xclip absent from
PATH, wl-paste present with non-blank Wayland clipboard content. -/
def wC6 : World :=
  { apiKey := some "k", sessionType := "x11", echoVar := none,
    promptFile := none, hasXclip := false, hasWlPaste := true,
    hasWlCopy := false, x11Primary := none, x11Clipboard := none,
    wlClipboard := some "wayland text", wlPrimary := none,
    remote := RemoteOutcome.failure }

/-- Concrete run for the amended C6: Wayland session with wl-paste
missing, xclip present with text on the PRIMARY selection. -/
def wC6b : World :=
  { apiKey := some "k", sessionType := "wayland", echoVar := none,
    promptFile := none, hasXclip := true, hasWlPaste := false,
    hasWlCopy := false, x11Primary := some "xtext", x11Clipboard := none,
    wlClipboard := none, wlPrimary := none, remote := RemoteOutcome.failure }

/-- Whether `need` occurs contiguously inside `hay`. -/
def listHasInfix (hay need : List Char) : Bool :=
  need.isPrefixOf hay ||
    match hay with
    | [] => false
    | _ :: t => listHasInfix t need

/-- Whether `need` occurs as a substring of `hay`. -/
def strContainsSub (hay need : String) : Bool :=
  listHasInfix hay.data need.data

/-- A paste helper "logs the omission" when some emitted log entry
mentions the missing tool (contains "missing"). -/
def logsOmission (eff : PasteEffect) : Prop :=
  ∃ e ∈ eff.logs, strContainsSub e "missing" = true

/-- Concrete run for C7: Wayland session with both wl-copy and xclip
absent from PATH. -/
def wC7 : World :=
  { apiKey := some "k", sessionType := "wayland", echoVar := none,
    promptFile := none, hasXclip := false, hasWlPaste := false,
    hasWlCopy := false, x11Primary := none, x11Clipboard := none,
    wlClipboard := none, wlPrimary := none, remote := RemoteOutcome.failure }

/-- Concrete run for the C8 counterexample: the instruction file exists
and contains only whitespace. -/
def wC8 : World :=
  { apiKey := some "k", sessionType := "x11", echoVar := none,
    promptFile := some "  \n", hasXclip := true, hasWlPaste := false,
    hasWlCopy := false, x11Primary := some "hello", x11Clipboard := none,
    wlClipboard := none, wlPrimary := none, remote := RemoteOutcome.failure }

/-- Concrete run for the amended C8: no instruction file present. -/
def wC8b : World :=
  { apiKey := some "k", sessionType := "x11", echoVar := none,
    promptFile := none, hasXclip := true, hasWlPaste := false,
    hasWlCopy := false, x11Primary := some "hello", x11Clipboard := none,
    wlClipboard := none, wlPrimary := none, remote := RemoteOutcome.failure }

/-- Spec-side text of one output block: its "text" field when that is a
string, else empty. -/
def specBlockText (bfs : List (String × Json)) : String :=
  match pyLookup bfs "text" with
  | some (Json.str s) => s
  | _ => ""

/-- Spec-side reading of the output-block shape: the texts of every block
whose type marks it as output text. -/
def specBlockTexts : List Json → List String
  | [] => []
  | blk :: rest =>
    match blk with
    | Json.obj bfs =>
      if typeIsOutputText bfs then specBlockText bfs :: specBlockTexts rest
      else specBlockTexts rest
    | _ => specBlockTexts rest

/-- Spec-side chunk list over all output items. -/
def specChunks : List Json → List String
  | [] => []
  | item :: rest =>
    (match item with
     | Json.obj fs =>
       match pyDictGetD fs "content" (Json.arr []) with
       | Json.arr blks => specBlockTexts blks
       | _ => []
     | _ => []) ++ specChunks rest

/-- Spec-side concatenation for the output-block shape: collect every
output-text block's text, join with newline separators, strip — the
claim's notion of "the concatenation from the output-block shape". -/
def specOutputConcat (items : List Json) : String :=
  pyStrip (joinSep "\n" (specChunks items))

/-- A block the code's inner loop traverses without raising: an object
whose "text" field, when its type is output text, is absent or a string. -/
def blkWellFormed : Json → Bool
  | Json.obj bfs =>
    if typeIsOutputText bfs then
      match pyLookup bfs "text" with
      | some (Json.str _) => true
      | none => true
      | _ => false
    else true
  | _ => false

/-- An output item the code's outer loop traverses without raising: an
object whose content (defaulting to the empty list) is a list of
well-formed blocks. -/
def itemWellFormed : Json → Bool
  | Json.obj fs =>
    match pyDictGetD fs "content" (Json.arr []) with
    | Json.arr blks => blks.all blkWellFormed
    | _ => false
  | _ => false

/-- All output items are well-formed. -/
def itemsWellFormed (items : List Json) : Bool := items.all itemWellFormed

/-- The first parsing branch falls through: the top-level "text" field is
absent, not a string, or blank after stripping. -/
def textFieldBlank (fs : List (String × Json)) : Bool :=
  match pyLookup fs "text" with
  | some (Json.str s) => pyStrip s = ""
  | _ => true

/-- Output list for the C10 counterexample: one well-formed item carrying
"hello", followed by a bare number (a legal JSON list element). -/
def itemsC10 : List Json :=
  [Json.obj [("content", Json.arr
    [Json.obj [("type", Json.str "output_text"), ("text", Json.str "hello")]])],
   Json.num 5]

/-- Response body for the C10 counterexample. -/
def dataC10 : Json := Json.obj [("output", Json.arr itemsC10)]

/-- Output list for the amended-C10 witness: one well-formed item. -/
def itemsC10b : List Json :=
  [Json.obj [("content", Json.arr
    [Json.obj [("type", Json.str "output_text"), ("text", Json.str "ok")]])]]

/-- Record of fields for the amended-C10 witness. -/
def fsC10 : List (String × Json) := [("output", Json.arr itemsC10b)]

theorem dropWhile_head_false {α : Type} {p : α → Bool} :
    ∀ {l : List α} {a : α}, (l.dropWhile p).head? = some a → p a = false := by
  intro l
  induction l with
  | nil => intro a h; simp [List.dropWhile] at h
  | cons x xs ih =>
    intro a h
    by_cases hx : p x
    · rw [List.dropWhile_cons_of_pos hx] at h
      exact ih h
    · rw [List.dropWhile_cons_of_neg hx] at h
      simp at h
      subst h
      simpa using hx

theorem dropWhile_of_head_false {α : Type} {p : α → Bool} {l : List α}
    (h : ∀ a, l.head? = some a → p a = false) : l.dropWhile p = l := by
  cases l with
  | nil => rfl
  | cons x xs =>
    have hx : p x = false := h x rfl
    simp [List.dropWhile_cons, hx]

theorem getLast?_dropWhile {α : Type} {p : α → Bool} :
    ∀ {l : List α} {a : α}, (l.dropWhile p).getLast? = some a → l.getLast? = some a := by
  intro l
  induction l with
  | nil => intro a h; simp [List.dropWhile] at h
  | cons x xs ih =>
    intro a h
    by_cases hx : p x
    · rw [List.dropWhile_cons_of_pos hx] at h
      have hxs := ih h
      have hne : xs ≠ [] := by
        intro hnil
        rw [hnil] at hxs
        simp at hxs
      cases xs with
      | nil => exact absurd rfl hne
      | cons y ys => rw [List.getLast?_cons_cons]; exact hxs
    · rw [List.dropWhile_cons_of_neg hx] at h
      exact h

theorem stripList_head {l : List Char} {a : Char}
    (h : (stripList l).head? = some a) : pyWsChar a = false := by
  unfold stripList at h
  rw [List.head?_reverse] at h
  have h2 := getLast?_dropWhile h
  rw [List.getLast?_reverse] at h2
  exact dropWhile_head_false h2

theorem stripList_getLast {l : List Char} {a : Char}
    (h : (stripList l).getLast? = some a) : pyWsChar a = false := by
  unfold stripList at h
  rw [List.getLast?_reverse] at h
  exact dropWhile_head_false h

theorem stripList_of_clean {l : List Char}
    (h1 : ∀ a, l.head? = some a → pyWsChar a = false)
    (h2 : ∀ a, l.getLast? = some a → pyWsChar a = false) :
    stripList l = l := by
  unfold stripList
  have e1 : l.dropWhile pyWsChar = l := dropWhile_of_head_false h1
  rw [e1]
  have e2 : l.reverse.dropWhile pyWsChar = l.reverse := by
    apply dropWhile_of_head_false
    intro a ha
    rw [List.head?_reverse] at ha
    exact h2 a ha
  rw [e2, List.reverse_reverse]

theorem stripList_idem (l : List Char) : stripList (stripList l) = stripList l :=
  stripList_of_clean (fun _ h => stripList_head h) (fun _ h => stripList_getLast h)

theorem pyStrip_idem (s : String) : pyStrip (pyStrip s) = pyStrip s :=
  congrArg String.mk (stripList_idem s.data)

theorem pyStrip_empty : pyStrip "" = "" := rfl

/-- C5: for every underlying content, the three accepted response shapes
(plain-text field, output-block list, chat choices) all make the revision
client extract the same text, namely the stripped content. -/
theorem c5_response_shapes_agree (T : String) :
    (parseOutcome (shapeText T)).text = pyStrip T ∧
    (parseOutcome (shapeOutput T)).text = pyStrip T ∧
    (parseOutcome (shapeChoices T)).text = pyStrip T := by
  refine ⟨?_, rfl, rfl⟩
  by_cases h : pyStrip T = ""
  · simp [parseOutcome, parseResponse, parseAfterText, parseAfterOutput,
      asDict, pyLookup, shapeText, h]
  · simp [parseOutcome, parseResponse, parseAfterText, parseAfterOutput,
      asDict, pyLookup, shapeText, h]

theorem parseAfterOutput_ok_stripped {fs : List (String × Json)} {r : ParseOutcome}
    (h : parseAfterOutput fs = Except.ok r) : pyStrip r.text = r.text := by
  unfold parseAfterOutput at h
  repeat' split at h
  all_goals
    first
      | exact Except.noConfusion h
      | (injection h with h2; subst h2; exact pyStrip_idem _)
      | (injection h with h2; subst h2; rfl)

theorem outputJoin_ok_stripped {chunks : List Json} {r : ParseOutcome}
    (h : outputJoin chunks = Except.ok r) : pyStrip r.text = r.text := by
  unfold outputJoin at h
  repeat' split at h
  all_goals
    first
      | exact Except.noConfusion h
      | (injection h with h2; subst h2; exact pyStrip_idem _)

theorem outputBranch_ok_stripped {items : List Json} {r : ParseOutcome}
    (h : outputBranch items = Except.ok r) : pyStrip r.text = r.text := by
  unfold outputBranch at h
  repeat' split at h
  all_goals
    first
      | exact Except.noConfusion h
      | exact outputJoin_ok_stripped h

theorem parseAfterText_ok_stripped {fs : List (String × Json)} {r : ParseOutcome}
    (h : parseAfterText fs = Except.ok r) : pyStrip r.text = r.text := by
  unfold parseAfterText at h
  repeat' split at h
  all_goals
    first
      | exact Except.noConfusion h
      | exact outputBranch_ok_stripped h
      | exact parseAfterOutput_ok_stripped h

theorem parseResponse_ok_stripped {data : Json} {r : ParseOutcome}
    (h : parseResponse data = Except.ok r) : pyStrip r.text = r.text := by
  unfold parseResponse at h
  repeat' split at h
  all_goals
    first
      | exact Except.noConfusion h
      | (injection h with h2; subst h2; exact pyStrip_idem _)
      | exact parseAfterText_ok_stripped h

theorem parseOutcome_text_stripped (data : Json) :
    pyStrip (parseOutcome data).text = (parseOutcome data).text := by
  unfold parseOutcome
  split
  next r hr => exact parseResponse_ok_stripped hr
  next => rfl

theorem ask_llm_stripped (o : RemoteOutcome) (p t : String) :
    pyStrip (ask_llm o p t) = ask_llm o p t := by
  cases o with
  | failure => rfl
  | response d => exact parseOutcome_text_stripped d

/-- C1: in every run whose remote call yields empty text (transport error,
timeout, malformed JSON, unrecognized shape, or an empty model response),
the text passed to the clipboard writer is exactly the captured text. -/
theorem c1_empty_result_falls_back (w : World)
    (hk : keyFalsy w.apiKey = false)
    (hs : pyStrip (capture w) ≠ "")
    (he : ask_llm w.remote (read_prompt w) (capture w) = "") :
    (Revisor.main w).pasteArg = some (capture w) := by
  simp [Revisor.main, hk, hs, he, pyStrip_empty]

/-- Witness for C1 at the concrete run `wC1`. -/
theorem c1_empty_result_falls_back_witness :
    (Revisor.main wC1).pasteArg = some (capture wC1) :=
  c1_empty_result_falls_back wC1 (by decide) (by decide) (by decide)

/-- C2: in every run whose captured text is empty or whitespace-only, the
remote service is never invoked and the process exits with code 0. -/
theorem c2_blank_capture_skips_remote (w : World)
    (hk : keyFalsy w.apiKey = false)
    (hs : pyStrip (capture w) = "") :
    (Revisor.main w).remoteCalled = false ∧ (Revisor.main w).exitCode = 0 := by
  simp [Revisor.main, hk, hs]

/-- Witness for C2 at the concrete run `wC2`. -/
theorem c2_blank_capture_skips_remote_witness :
    (Revisor.main wC2).remoteCalled = false ∧ (Revisor.main wC2).exitCode = 0 :=
  c2_blank_capture_skips_remote wC2 (by decide) (by decide)

/-- C4: every run started without the API-key variable set exits with code
1 and performs no clipboard read, no clipboard write, and no remote call. -/
theorem c4_missing_key_halts (w : World) (h : w.apiKey = none) :
    (Revisor.main w).exitCode = 1 ∧ (Revisor.main w).clipboardRead = false ∧
    (Revisor.main w).remoteCalled = false ∧ (Revisor.main w).pasteArg = none ∧
    (Revisor.main w).written = none := by
  simp [Revisor.main, keyFalsy, h]

/-- Witness for C4 at the concrete run `wC4`. -/
theorem c4_missing_key_halts_witness :
    (Revisor.main wC4).exitCode = 1 ∧ (Revisor.main wC4).clipboardRead = false ∧
    (Revisor.main wC4).remoteCalled = false ∧ (Revisor.main wC4).pasteArg = none ∧
    (Revisor.main wC4).written = none :=
  c4_missing_key_halts wC4 rfl

/-- C9: in every run whose remote call yields non-empty text, the string
handed to the clipboard writer is that text and carries no leading or
trailing whitespace (every successful parse path strips before returning). -/
theorem c9_remote_text_is_stripped (w : World)
    (hk : keyFalsy w.apiKey = false)
    (hs : pyStrip (capture w) ≠ "")
    (hr : ask_llm w.remote (read_prompt w) (capture w) ≠ "") :
    (Revisor.main w).pasteArg = some (ask_llm w.remote (read_prompt w) (capture w)) ∧
    pyStrip (ask_llm w.remote (read_prompt w) (capture w)) =
      ask_llm w.remote (read_prompt w) (capture w) := by
  have hstr := ask_llm_stripped w.remote (read_prompt w) (capture w)
  refine ⟨?_, hstr⟩
  have hns : pyStrip (ask_llm w.remote (read_prompt w) (capture w)) ≠ "" := by
    rw [hstr]; exact hr
  simp [Revisor.main, hk, hs, hns]

/-- Witness for C9 at the concrete run `wC9`. -/
theorem c9_remote_text_is_stripped_witness :
    (Revisor.main wC9).pasteArg = some (ask_llm wC9.remote (read_prompt wC9) (capture wC9)) ∧
    pyStrip (ask_llm wC9.remote (read_prompt wC9) (capture wC9)) =
      ask_llm wC9.remote (read_prompt wC9) (capture wC9) :=
  c9_remote_text_is_stripped wC9 (by decide) (by decide) (by decide)

/-- C3 as stated is false: with echo on, the clipboard writer receives
"Hi" while the bytes written to standard output are "Hi\n" — `print`
appends a newline, so the streams are not byte-for-byte identical. -/
theorem c3_counterexample :
    echoFlag wC3 = true ∧ (Revisor.main wC3).pasteArg = some "Hi" ∧
    (Revisor.main wC3).stdoutText ≠ "Hi" := by
  decide

/-- C3 amended: with echo on, a run that reaches the clipboard-write step
writes to standard output exactly the final clipboard text followed by a
single appended newline. -/
theorem c3_echo_appends_newline (w : World)
    (hk : keyFalsy w.apiKey = false)
    (hs : pyStrip (capture w) ≠ "")
    (hecho : echoFlag w = true) :
    ∃ r, (Revisor.main w).pasteArg = some r ∧
      (Revisor.main w).stdoutText = r ++ "\n" := by
  refine ⟨if pyStrip (ask_llm w.remote (read_prompt w) (capture w)) = ""
    then capture w else ask_llm w.remote (read_prompt w) (capture w), ?_, ?_⟩ <;>
    simp [Revisor.main, hk, hs, hecho]

/-- Witness for the amended C3 at the concrete run `wC3`. -/
theorem c3_echo_appends_newline_witness :
    ∃ r, (Revisor.main wC3).pasteArg = some r ∧
      (Revisor.main wC3).stdoutText = r ++ "\n" :=
  c3_echo_appends_newline wC3 (by decide) (by decide) (by decide)

/-- C6 as stated is false on the X11 side: with the session identified as
X11 and xclip unavailable, capture still runs only the X11 sequence and
returns empty text instead of falling back to the Wayland sequence, which
here would have produced "wayland text". -/
theorem c6_counterexample :
    capture wC6 = "" ∧ wayland_capture wC6 = "wayland text" ∧
    capture wC6 ≠ wayland_capture wC6 := by
  decide

/-- C6 amended: whenever the session is not identified as Wayland, or it
is but wl-paste is unavailable, capture runs the X11 sequence; the
fallback across families exists only in the Wayland-to-X11 direction. -/
theorem c6_capture_dispatch (w : World)
    (h : pyLower w.sessionType = "wayland" → w.hasWlPaste = false) :
    capture w = x11_capture w := by
  unfold capture
  by_cases hw : pyLower w.sessionType = "wayland"
  · have := h hw
    rw [if_neg]
    intro hc
    rw [this] at hc
    exact Bool.false_ne_true hc.2
  · rw [if_neg]
    intro hc
    exact hw hc.1

/-- Witness for the amended C6 at the concrete run `wC6b`. -/
theorem c6_capture_dispatch_witness : capture wC6b = x11_capture wC6b :=
  c6_capture_dispatch wC6b (by decide)

/-- C7 as stated is false on the Wayland side: with wl-copy missing, the
Wayland writer returns without writing but emits only its unconditional
length header — no log entry records the omission. -/
theorem c7_counterexample :
    (paste_wayland wC7 "").written = none ∧
    (paste_wayland wC7 "").logs = [waylandPasteLog 0] ∧
    ¬ logsOmission (paste_wayland wC7 "") := by
  refine ⟨rfl, rfl, ?_⟩
  intro h
  rcases h with ⟨e, he, hsub⟩
  simp [paste_wayland, wC7] at he
  rw [he] at hsub
  exact absurd hsub (by decide)

/-- C7 amended: when the needed tool is missing the X11 writer logs the
omission and writes nothing, while the Wayland writer writes nothing and
emits only its unconditional length header, never an omission entry;
moreover the paste dispatcher routes a Wayland session with missing
wl-copy to the X11 writer. -/
theorem c7_missing_tool_behavior (w : World) (t : String) :
    (w.hasXclip = false →
      (paste_x11 w t).written = none ∧ logsOmission (paste_x11 w t)) ∧
    ((paste_wayland w t).logs = [waylandPasteLog t.length] ∧
      (w.hasWlCopy = false → (paste_wayland w t).written = none)) ∧
    (w.hasWlCopy = false → paste w t = paste_x11 w t) := by
  refine ⟨?_, ⟨rfl, ?_⟩, ?_⟩
  · intro h
    refine ⟨by simp [paste_x11, h], ?_⟩
    refine ⟨"xclip missing; cannot set clipboard", by simp [paste_x11, h], by decide⟩
  · intro h
    simp [paste_wayland, h]
  · intro h
    unfold paste
    rw [if_neg]
    intro hc
    rw [h] at hc
    exact Bool.false_ne_true hc.2

/-- Witness for the amended C7 at the concrete run `wC7`. -/
theorem c7_missing_tool_behavior_witness :
    ((paste_x11 wC7 "").written = none ∧ logsOmission (paste_x11 wC7 "")) ∧
    ((paste_wayland wC7 "").logs = [waylandPasteLog 0] ∧
      (paste_wayland wC7 "").written = none) ∧
    paste wC7 "" = paste_x11 wC7 "" :=
  ⟨(c7_missing_tool_behavior wC7 "").1 rfl,
   ⟨(c7_missing_tool_behavior wC7 "").2.1.1,
    (c7_missing_tool_behavior wC7 "").2.1.2 rfl⟩,
   (c7_missing_tool_behavior wC7 "").2.2 rfl⟩

/-- C8 as stated is false: when the instruction file exists with
whitespace-only content, `read_prompt` returns its stripped contents,
which is the empty string. -/
theorem c8_counterexample : read_prompt wC8 = "" := by
  decide

/-- C8 amended: the instruction text is non-empty whenever the
instruction file is absent (the built-in default is non-empty) or its
content does not strip to the empty string; only an existing file with
whitespace-only content produces an empty instruction. -/
theorem c8_prompt_nonempty (w : World)
    (h : w.promptFile = none ∨ ∃ c, w.promptFile = some c ∧ pyStrip c ≠ "") :
    read_prompt w ≠ "" := by
  rcases h with h | ⟨c, hc, hne⟩
  · rw [read_prompt, h]
    decide
  · rw [read_prompt, hc]
    exact hne

/-- Witness for the amended C8 at the concrete run `wC8b`. -/
theorem c8_prompt_nonempty_witness : read_prompt wC8b ≠ "" :=
  c8_prompt_nonempty wC8b (Or.inl rfl)

theorem chunksOfBlocks_wf :
    ∀ {blks : List Json}, blks.all blkWellFormed = true →
      chunksOfBlocks blks = Except.ok ((specBlockTexts blks).map Json.str) := by
  intro blks
  induction blks with
  | nil => intro _; rfl
  | cons blk rest ih =>
    intro h
    rw [List.all_cons, Bool.and_eq_true] at h
    obtain ⟨h1, h2⟩ := h
    cases blk with
    | obj bfs =>
      simp only [blkWellFormed] at h1
      simp only [chunksOfBlocks, asDict, ih h2]
      by_cases ht : typeIsOutputText bfs = true
      · rw [if_pos ht] at h1
        simp only [specBlockTexts, ht, if_true, List.map_cons]
        cases hl : pyLookup bfs "text" with
        | none => simp [pyDictGetD, hl, specBlockText]
        | some v =>
          cases v with
          | str s => simp [pyDictGetD, hl, specBlockText]
          | null => rw [hl] at h1; simp at h1
          | bool b => rw [hl] at h1; simp at h1
          | num n => rw [hl] at h1; simp at h1
          | arr xs => rw [hl] at h1; simp at h1
          | obj fs2 => rw [hl] at h1; simp at h1
      · simp [specBlockTexts, ht]
    | null => simp [blkWellFormed] at h1
    | bool b => simp [blkWellFormed] at h1
    | num n => simp [blkWellFormed] at h1
    | str s => simp [blkWellFormed] at h1
    | arr xs => simp [blkWellFormed] at h1

theorem collectChunks_wf :
    ∀ {items : List Json}, itemsWellFormed items = true →
      collectChunks items = Except.ok ((specChunks items).map Json.str) := by
  intro items
  induction items with
  | nil => intro _; rfl
  | cons item rest ih =>
    intro h
    rw [itemsWellFormed, List.all_cons, Bool.and_eq_true] at h
    obtain ⟨h1, h2⟩ := h
    have h2a : itemsWellFormed rest = true := h2
    cases item with
    | obj fs =>
      simp only [itemWellFormed] at h1
      cases hc : pyDictGetD fs "content" (Json.arr []) with
      | arr blks =>
        rw [hc] at h1
        simp only [collectChunks, asDict, hc, iterable, chunksOfBlocks_wf h1, ih h2a]
        simp [specChunks, hc, List.map_append]
      | null => rw [hc] at h1; simp at h1
      | bool b => rw [hc] at h1; simp at h1
      | num n => rw [hc] at h1; simp at h1
      | str s => rw [hc] at h1; simp at h1
      | obj fs2 => rw [hc] at h1; simp at h1
    | null => simp [itemWellFormed] at h1
    | bool b => simp [itemWellFormed] at h1
    | num n => simp [itemWellFormed] at h1
    | str s => simp [itemWellFormed] at h1
    | arr xs => simp [itemWellFormed] at h1

theorem allStrs_map (ss : List String) :
    allStrs (ss.map Json.str) = Except.ok ss := by
  induction ss with
  | nil => rfl
  | cons s rest ih => simp [allStrs, ih]

theorem parseResponse_obj_textBlank {fs : List (String × Json)}
    (h : textFieldBlank fs = true) :
    parseResponse (Json.obj fs) = parseAfterText fs := by
  unfold textFieldBlank at h
  unfold parseResponse
  simp only [asDict]
  cases hl : pyLookup fs "text" with
  | none => simp [hl]
  | some v =>
    cases v with
    | str s =>
      rw [hl] at h
      have hs : pyStrip s = "" := of_decide_eq_true h
      simp [hl, hs]
    | null => simp [hl]
    | bool b => simp [hl]
    | num n => simp [hl]
    | arr xs => simp [hl]
    | obj fs2 => simp [hl]

/-- C10 as stated is false: on an output list containing a non-object
item, `item.get` raises before the collected chunks are returned, the
handler yields the empty string, and the client does not return the
concatenation from the output-block shape (here "hello"). -/
theorem c10_counterexample :
    ask_llm (RemoteOutcome.response dataC10) "p" "u" = "" ∧
    (parseOutcome dataC10).path = ParsePath.errorPath ∧
    specOutputConcat itemsC10 = "hello" ∧
    ask_llm (RemoteOutcome.response dataC10) "p" "u" ≠ specOutputConcat itemsC10 := by
  decide

/-- C10 amended: whenever the top-level text field is absent or blank and
"output" is bound to a list, the client neither examines the choices
shape nor takes the raw-body-logging branch; and when every output item
is well formed it returns exactly the newline-joined, stripped
concatenation of the output-text block texts via the output branch. -/
theorem c10_output_branch (fs : List (String × Json)) (items : List Json)
    (h1 : textFieldBlank fs = true)
    (h2 : pyLookup fs "output" = some (Json.arr items)) :
    (parseOutcome (Json.obj fs)).path ≠ ParsePath.choicesPath ∧
    (parseOutcome (Json.obj fs)).path ≠ ParsePath.failPath ∧
    (itemsWellFormed items = true →
      parseOutcome (Json.obj fs) = ⟨specOutputConcat items, ParsePath.outputPath⟩) := by
  have hre : parseResponse (Json.obj fs) = parseAfterText fs :=
    parseResponse_obj_textBlank h1
  have hpt : parseAfterText fs = outputBranch items := by
    unfold parseAfterText
    rw [h2]
  have hpo : parseOutcome (Json.obj fs) =
      (match outputBranch items with
       | Except.ok r => r
       | Except.error _ => ParseOutcome.mk "" ParsePath.errorPath) := by
    unfold parseOutcome
    rw [hre, hpt]
  cases hcc : collectChunks items with
  | error e =>
    have hb : outputBranch items = Except.error e := by
      unfold outputBranch
      rw [hcc]
    have hout : parseOutcome (Json.obj fs) = ParseOutcome.mk "" ParsePath.errorPath := by
      rw [hpo, hb]
    refine ⟨by rw [hout]; decide, by rw [hout]; decide, ?_⟩
    intro hwf
    rw [collectChunks_wf hwf] at hcc
    exact Except.noConfusion hcc
  | ok chunks =>
    have hb : outputBranch items = outputJoin chunks := by
      unfold outputBranch
      rw [hcc]
    cases hjj : pyJoin "\n" chunks with
    | error e =>
      have hj3 : outputJoin chunks = Except.error e := by
        unfold outputJoin
        rw [hjj]
      have hout : parseOutcome (Json.obj fs) = ParseOutcome.mk "" ParsePath.errorPath := by
        rw [hpo, hb, hj3]
      refine ⟨by rw [hout]; decide, by rw [hout]; decide, ?_⟩
      intro hwf
      rw [collectChunks_wf hwf] at hcc
      injection hcc with hc2
      rw [← hc2, pyJoin, allStrs_map] at hjj
      exact Except.noConfusion hjj
    | ok t =>
      have hj3 : outputJoin chunks =
          Except.ok (ParseOutcome.mk (pyStrip t) ParsePath.outputPath) := by
        unfold outputJoin
        rw [hjj]
      have hout : parseOutcome (Json.obj fs) =
          ParseOutcome.mk (pyStrip t) ParsePath.outputPath := by
        rw [hpo, hb, hj3]
      refine ⟨by rw [hout]; simp, by rw [hout]; simp, ?_⟩
      intro hwf
      rw [collectChunks_wf hwf] at hcc
      injection hcc with hc2
      rw [← hc2, pyJoin, allStrs_map] at hjj
      injection hjj with hj2
      rw [hout, ← hj2]
      rfl

/-- Witness for the amended C10 at the concrete response `fsC10`. -/
theorem c10_output_branch_witness :
    (parseOutcome (Json.obj fsC10)).path ≠ ParsePath.choicesPath ∧
    (parseOutcome (Json.obj fsC10)).path ≠ ParsePath.failPath ∧
    parseOutcome (Json.obj fsC10) = ⟨specOutputConcat itemsC10b, ParsePath.outputPath⟩ :=
  ⟨(c10_output_branch fsC10 itemsC10b rfl rfl).1,
   (c10_output_branch fsC10 itemsC10b rfl rfl).2.1,
   (c10_output_branch fsC10 itemsC10b rfl rfl).2.2 rfl⟩
